import Mathlib

/-!
Verification of the crush OCPP 1.6 central-system runtime.

Shallow embedding of the protocol codec (src/crush/src/serde.rs), the error
mapping (src/crush/src/error.rs), the dispatcher loop
(src/crush/src/controller_loop.rs), the registry loop
(src/crush/src/server_loop.rs) and the URL name extraction
(src/crush/src/accept_loop.rs).

Modelling conventions:
- serde_json values are modelled by the inductive `Json`; numbers are
  modelled as integers, which covers every value the claims range over.
- The OCPP 1.6 payload schemas (BootNotificationRequest,
  StatusNotificationRequest from the external rust_ocpp crate, which is a
  declared external dependency and not part of this repository) are kept
  abstract: the decoder is parameterised by two total payload decoders
  returning `Except String _`, mirroring `serde_json::from_value`, whose
  error is consumed only through its display string.
- Serialized output is modelled by the JSON value it denotes; serde_json
  output for the values in scope is always valid UTF-8 and never fails.
-/

/-- Model of serde_json::Value. Numbers are modelled as integers. -/
inductive Json where
  | null
  | bool (b : Bool)
  | num (n : Int)
  | str (s : String)
  | arr (elems : List Json)
  | obj (fields : List (String × Json))

/-- Model of serde_json::Value::as_str: Some only on strings. -/
def Json.as_str : Json → Option String
  | .str s => some s
  | _ => none

/-- Model of OcppResponseError (src/crush/src/error.rs, lines 37-50).
The details field carries a serde_json Value. -/
inductive OcppResponseError where
  | generic
  | invalidRequestFormat (details : Json)
  | unsupportedMessageType (details : Json)
  | internalError

/-- The error surfaced by serde_json::from_str on an OcppRequest.  The custom
Deserialize impl fails either because the top-level value is not a JSON array
(the Vec of Value step fails) or with a D::Error::custom wrapping of an
OcppResponseError value. -/
inductive DecodeError where
  | notAnArray
  | ocpp (e : OcppResponseError)

/-- Model of OcppRequestMessage (src/crush/src/serde.rs, lines 15-20),
parameterised by the external payload types.  HeartbeatRequest is the empty
struct, so the heartbeat constructor carries no payload. -/
inductive OcppRequestMessage (B S : Type) where
  | statusNotification (request : S)
  | bootNotification (request : B)
  | heartbeat

/-- Model of OcppRequest (src/crush/src/serde.rs, lines 10-13). -/
structure OcppRequest (B S : Type) where
  payload : OcppRequestMessage B S
  uuid : String

/-- Model of the Deserialize impl for OcppRequest
(src/crush/src/serde.rs, lines 22-117).  `parseBoot` and `parseStatus` model
`serde_json::from_value` at the two external payload schemas.  The Rust match
on the message type string is rendered as the equivalent chain of string
comparisons. -/
def OcppRequest.deserialize {B S : Type}
    (parseBoot : Json → Except String B) (parseStatus : Json → Except String S) :
    Json → Except DecodeError (OcppRequest B S)
  | .arr value =>
    if value.length < 3 then
      .error (.ocpp (.invalidRequestFormat (.str
        ("Invalid message format: expected at least 3 elements, found "
          ++ toString value.length ++ "."))))
    else
      match (value.get? 1).bind Json.as_str with
      | none => .error (.ocpp (.invalidRequestFormat (.str
          "Invalid UUID: expected a string but found none.")))
      | some uuid =>
        match (value.get? 2).bind Json.as_str with
        | none => .error (.ocpp (.invalidRequestFormat (.str
            "Invalid message type: expected a string but found none.")))
        | some message_type =>
          if message_type = "BootNotification" then
            match value.get? 3 with
            | none => .error (.ocpp (.invalidRequestFormat (.str
                "Missing payload for BootNotification.")))
            | some payloadJson =>
              match parseBoot payloadJson with
              | .error error => .error (.ocpp (.invalidRequestFormat (.str
                  ("Failed to deserialize BootNotificationRequest: " ++ error))))
              | .ok payload => .ok ⟨.bootNotification payload, uuid⟩
          else if message_type = "Heartbeat" then
            .ok ⟨.heartbeat, uuid⟩
          else if message_type = "StatusNotification" then
            match value.get? 3 with
            | none => .error (.ocpp (.invalidRequestFormat (.str
                "Missing payload for StatusNotification.")))
            | some payloadJson =>
              match parseStatus payloadJson with
              | .error error => .error (.ocpp (.invalidRequestFormat (.str
                  ("Failed to deserialize StatusNotificationRequest: " ++ error))))
              | .ok payload => .ok ⟨.statusNotification payload, uuid⟩
          else
            .error (.ocpp (.unsupportedMessageType (.str
              ("Unknown message type: \x27" ++ message_type ++ "\x27."))))
  | _ => .error .notAnArray

/-- A payload decoder that rejects every value; used to instantiate the
abstract payload schemas on paths where they are never consulted. -/
def reject_payload : Json → Except String Unit :=
  fun _ => Except.error "payload decoder not consulted"

example : OcppRequest.deserialize reject_payload reject_payload
    (.arr [.num 2, .str "u", .str "Heartbeat"]) = .ok ⟨.heartbeat, "u"⟩ := rfl

example : OcppRequest.deserialize reject_payload reject_payload
    (.arr [.num 2, .str "y"]) = .error (.ocpp (.invalidRequestFormat (.str
      "Invalid message format: expected at least 3 elements, found 2."))) := rfl

example : OcppRequest.deserialize reject_payload reject_payload
    (.arr [.num 2, .str "x", .str "Authorize", .obj []]) =
    .error (.ocpp (.unsupportedMessageType (.str
      "Unknown message type: \x27Authorize\x27."))) := rfl

/-- Model of OcppResponseMessage (src/crush/src/serde.rs, lines 119-129).
The typed response payloads (external rust_ocpp types) are represented by
the serde_json value they serialize to. -/
inductive OcppResponseMessage where
  | statusNotification (payload : Json)
  | bootNotification (payload : Json)
  | heartbeat (payload : Json)
  | callError (error_code : String) (error_description : String) (error_details : Json)

/-- The observable effect of one serialize_seq run: the length hint passed
to serialize_seq and the elements written in order.  serde_json renders the
elements and ignores the hint, so the emitted JSON text denotes
`Json.arr elems` whatever the hint says. -/
structure SerializedSeq where
  hint : Nat
  elems : List Json

/-- The JSON value denoted by the emitted text. -/
def SerializedSeq.toJson (s : SerializedSeq) : Json := .arr s.elems

/-- Model of OcppResponseMessage::serialize_with_params
(src/crush/src/serde.rs, lines 131-184).  For these values serialization and
the UTF-8 conversion never fail, so the JsonResult wrapper is dropped. -/
def OcppResponseMessage.serialize_with_params
    (m : OcppResponseMessage) (message_type_id : Nat) (uuid : String) : SerializedSeq :=
  match m with
  | .bootNotification payload =>
    ⟨4, [.num message_type_id, .str uuid, .str "BootNotification", payload]⟩
  | .heartbeat payload =>
    ⟨3, [.num message_type_id, .str uuid, .str "Heartbeat", payload]⟩
  | .statusNotification payload =>
    ⟨3, [.num message_type_id, .str uuid, .str "StatusNotification", payload]⟩
  | .callError error_code error_description error_details =>
    ⟨5, [.num 4, .str uuid, .str error_code, .str error_description, error_details]⟩

/-- Model of IntoOcppRequestMessage::into_ocpp_response for OcppResponseError
(src/crush/src/error.rs, lines 58-83).  Value::default() is Value::Null. -/
def OcppResponseError.into_ocpp_response : OcppResponseError → OcppResponseMessage
  | .invalidRequestFormat details => .callError "FormationViolation"
      "Payload for Action is syntactically incorrect or not conform the PDU structure for Action"
      details
  | .unsupportedMessageType details => .callError "NotSupported"
      "Requested Action is recognized but not supported by the receiver"
      details
  | .internalError => .callError "InternalError"
      "An internal error occurred and the receiver was not able to process the requested Action successfully"
      .null
  | .generic => .callError "GenericError" "Something unexpected happened." .null

/-- Model of Controller::handle_message (src/crush/src/controller_loop.rs,
lines 40-63) on a ToController::Message(message, sender).  The result is the
value sent through the oneshot reply sender, or `none` when nothing is sent:
on decode failure the code logs and returns Ok(()), dropping the sender
unfired.  `process` models Controller::process (lines 64-106), whose value
depends on the registered or default handlers and on the clock; it always
returns an OcppResponseMessage (handler errors are mapped by
into_ocpp_response inside process).  The dispatcher serializes with
message_type_id 3 (line 58); the reply is modelled by the JSON value of the
serialized string. -/
def Controller.handleMessage {B S : Type}
    (process : OcppRequestMessage B S → OcppResponseMessage)
    (parseBoot : Json → Except String B) (parseStatus : Json → Except String S)
    (message : Json) : Option Json :=
  match OcppRequest.deserialize parseBoot parseStatus message with
  | .error _ => none
  | .ok ocpp_request =>
    some (((process ocpp_request.payload).serialize_with_params 3 ocpp_request.uuid).toJson)

/-- Model of a ClientHandle as the Registry sees it
(src/crush/src/client_loop.rs): its id and the mailbox of messages enqueued
on its bounded outbound channel, in order. -/
structure Client where
  id : Nat
  mailbox : List Json

/-- Model of ToServer (src/crush/src/server_loop.rs, lines 23-27). -/
inductive ToServer where
  | newClient (client_handle : Client)
  | clientGone (id : Nat)
  | clientMessage (id : Nat) (text : Json)

/-- The one CrushError constructor reachable from Server::handle_message:
the RecvError returned by awaiting a oneshot whose sender was dropped. -/
inductive CrushError where
  | oneshotReceive

/-- HashMap::get on the id-to-client map, modelled on an association list. -/
def lookupClient : List (Nat × Client) → Nat → Option Client
  | [], _ => none
  | (k, c) :: rest, id => if k = id then some c else lookupClient rest id

/-- HashMap::remove, modelled on an association list. -/
def removeClient (m : List (Nat × Client)) (id : Nat) : List (Nat × Client) :=
  m.filter (fun p => p.1 != id)

/-- HashMap::insert, modelled on an association list (replaces any existing
binding of the key). -/
def insertClient (m : List (Nat × Client)) (k : Nat) (c : Client) : List (Nat × Client) :=
  (k, c) :: removeClient m k

/-- ClientHandle::send of ToClient::Message(text): append to the mailbox of
the client bound to `id`. -/
def pushMailbox (m : List (Nat × Client)) (id : Nat) (text : Json) : List (Nat × Client) :=
  m.map (fun p => if p.1 = id then (p.1, ⟨p.2.id, p.2.mailbox ++ [text]⟩) else p)

/-- Model of the Server actor state (src/crush/src/server_loop.rs, lines
29-33).  `controller_reply` models the round trip through
controller_handle.send plus the oneshot: `some r` when the Controller sends
r on the reply channel, `none` when it drops the sender unfired, in which
case receiver.await returns a RecvError. -/
structure Server where
  controller_reply : Json → Option Json
  clients : List (Nat × Client)

/-- Model of Server::handle_message (src/crush/src/server_loop.rs, lines
43-69).  The second component is the trace of ToController messages sent to
the dispatcher while handling this one message. -/
def Server.handle_message (s : Server) (msg : ToServer) :
    Except CrushError Server × List Json :=
  match msg with
  | .newClient client_handle =>
    (.ok ⟨s.controller_reply, insertClient s.clients client_handle.id client_handle⟩, [])
  | .clientGone id =>
    (.ok ⟨s.controller_reply, removeClient s.clients id⟩, [])
  | .clientMessage id message =>
    match lookupClient s.clients id with
    | some _ =>
      match s.controller_reply message with
      | some response =>
        (.ok ⟨s.controller_reply, pushMailbox s.clients id response⟩, [message])
      | none => (.error .oneshotReceive, [message])
    | none => (.ok s, [])

/-- Model of run_server (src/crush/src/server_loop.rs, lines 72-77) on a
finite prefix of the channel: handle_message errors are propagated by the
question-mark operator, ending the receive loop at once; the remaining
messages are never consumed. -/
def run_server (s : Server) : List ToServer → Except CrushError Server
  | [] => .ok s
  | msg :: rest =>
    match (s.handle_message msg).1 with
    | .ok s₂ => run_server s₂ rest
    | .error e => .error e

/-- A concrete dispatcher round trip used by the closed witnesses and
counterexamples: payload schemas instantiated at Unit with reject_payload,
and every decoded request answered by a Heartbeat response with null
payload. -/
def demo_controller_reply : Json → Option Json :=
  Controller.handleMessage (fun _ => .heartbeat .null) reject_payload reject_payload

/-- The malformed envelope of spec scenario 4, the JSON text [2,"y"]. -/
def bad_text : Json := .arr [.num 2, .str "y"]

example : demo_controller_reply bad_text = none := rfl

example : demo_controller_reply (.arr [.num 2, .str "u", .str "Heartbeat"]) =
    some (.arr [.num 3, .str "u", .str "Heartbeat", .null]) := rfl

example : run_server ⟨demo_controller_reply, [(0, ⟨0, []⟩)]⟩
    [.clientMessage 0 bad_text, .newClient ⟨5, []⟩] = .error .oneshotReceive := rfl

/-- Rust str::split(sep) on a character list: substrings between separators,
keeping empty pieces at the ends and between adjacent separators. -/
def splitCharAux (sep : Char) : List Char → List Char → List String
  | [], acc => [String.mk acc.reverse]
  | c :: cs, acc =>
    if c = sep then String.mk acc.reverse :: splitCharAux sep cs []
    else splitCharAux sep cs (c :: acc)

/-- Rust str::split(sep) on a string. -/
def splitOnChar (s : String) (sep : Char) : List String :=
  splitCharAux sep s.data []

example : splitOnChar "/ocpp/foo" '/' = ["", "ocpp", "foo"] := rfl

example : splitOnChar "" '/' = [""] := rfl

/-- The non-empty path segments, as computed in extract_name
(src/crush/src/accept_loop.rs, lines 127-130). -/
def path_segments (path : String) : List String :=
  (splitOnChar path '/').filter (fun segment => !segment.isEmpty)

/-- The path and query components of the request target; hyper parses the
target so that `request.uri().path()` is the part before any question mark
and the query is never part of `path`. -/
structure Uri where
  path : String
  query : Option String

/-- The slice of the HTTP request consulted by extract_name. -/
structure Request where
  uri : Uri

/-- An HTTP response as produced in accept_loop.rs: status code, content
type header, body. -/
structure HttpResponse where
  status : Nat
  content_type : String
  body : String

/-- Model of ExtractNameResult (src/crush/src/accept_loop.rs, lines
120-123). -/
inductive ExtractNameResult where
  | name (n : String)
  | error (response : HttpResponse)

/-- The 400 response built in extract_name (src/crush/src/accept_loop.rs,
lines 134-143). -/
def invalid_uri_response : HttpResponse :=
  ⟨400, "text/plain", "Invalid URI format. Expected: /ocpp/\x7bcharging_station_name\x7d"⟩

/-- Model of extract_name (src/crush/src/accept_loop.rs, lines 125-146).
The Rust match arm with a pattern guard falls through to the wildcard arm
when the guard fails, which the inner if-else reproduces. -/
def extract_name (request : Request) : ExtractNameResult :=
  let path := request.uri.path
  let segments := path_segments path
  match segments with
  | ["ocpp", name] =>
    if !name.isEmpty then .name name else .error invalid_uri_response
  | _ => .error invalid_uri_response

example : extract_name ⟨⟨"/ocpp/station", some "foo=bar"⟩⟩ = .name "station" := rfl

example : extract_name ⟨⟨"/foo/bar", none⟩⟩ = .error invalid_uri_response := rfl

example : extract_name ⟨⟨"/ocpp/a/b", none⟩⟩ = .error invalid_uri_response := rfl

example : extract_name ⟨⟨"//ocpp//x", none⟩⟩ = .name "x" := rfl

/-- C6: for every typed response payload (Heartbeat, BootNotification or
StatusNotification) and every uuid, the encoder called with message_type_id 3
(as the dispatcher does) writes exactly the four elements
[3, uuid, action, payload], even though the Heartbeat and StatusNotification
arms declare a length-3 sequence hint (the BootNotification arm declares 4);
serde_json ignores the hint, so the emitted JSON array has four elements. -/
theorem callresult_four_elements (payload : Json) (uuid : String) :
    (OcppResponseMessage.serialize_with_params (.heartbeat payload) 3 uuid).elems
      = [.num 3, .str uuid, .str "Heartbeat", payload] ∧
    (OcppResponseMessage.serialize_with_params (.heartbeat payload) 3 uuid).elems.length = 4 ∧
    (OcppResponseMessage.serialize_with_params (.heartbeat payload) 3 uuid).hint = 3 ∧
    (OcppResponseMessage.serialize_with_params (.statusNotification payload) 3 uuid).elems
      = [.num 3, .str uuid, .str "StatusNotification", payload] ∧
    (OcppResponseMessage.serialize_with_params (.statusNotification payload) 3 uuid).elems.length = 4 ∧
    (OcppResponseMessage.serialize_with_params (.statusNotification payload) 3 uuid).hint = 3 ∧
    (OcppResponseMessage.serialize_with_params (.bootNotification payload) 3 uuid).elems
      = [.num 3, .str uuid, .str "BootNotification", payload] ∧
    (OcppResponseMessage.serialize_with_params (.bootNotification payload) 3 uuid).elems.length = 4 ∧
    (OcppResponseMessage.serialize_with_params (.bootNotification payload) 3 uuid).hint = 4 :=
  ⟨rfl, rfl, rfl, rfl, rfl, rfl, rfl, rfl, rfl⟩

/-- C7: for every CallError (any code, description and details), every uuid
and every message_type_id argument, the encoder emits the five elements
[4, uuid, code, description, details]; element 0 is the literal 4, not the
message_type_id argument (which the dispatcher sets to 3). -/
theorem callerror_header_always_four (error_code error_description : String)
    (error_details : Json) (uuid : String) (message_type_id : Nat) :
    OcppResponseMessage.serialize_with_params
        (.callError error_code error_description error_details) message_type_id uuid
      = ⟨5, [.num 4, .str uuid, .str error_code, .str error_description, error_details]⟩ :=
  rfl

/-- C3 counterexample: the array [3, "u", "Heartbeat"] has element 0 equal to
the integer 3, not 2, yet the decoder returns a typed Call, because the
Deserialize impl never reads element 0. -/
theorem decode_accepts_wrong_element_zero :
    OcppRequest.deserialize reject_payload reject_payload
      (.arr [.num 3, .str "u", .str "Heartbeat"]) = .ok ⟨.heartbeat, "u"⟩ ∧
    Json.num 3 ≠ Json.num 2 :=
  ⟨rfl, by intro h; injection h with h; exact absurd h (by decide)⟩

/-- C3 amended: the decoder never inspects element 0 at all — replacing the
head of the array by any other JSON value leaves the decode result
unchanged (the length check and the element 1, 2 and 3 accesses are the only
uses of the array). -/
theorem decode_element_zero_irrelevant {B S : Type}
    (parseBoot : Json → Except String B) (parseStatus : Json → Except String S)
    (x y : Json) (v : List Json) :
    OcppRequest.deserialize parseBoot parseStatus (.arr (x :: v)) =
    OcppRequest.deserialize parseBoot parseStatus (.arr (y :: v)) :=
  rfl

/-- C10: when element 2 is the string Heartbeat, element 3 is never
inspected: any array of length at least 3 whose element 1 is a string u and
whose element 2 is the string Heartbeat decodes to the Call with uuid u and
the empty Heartbeat payload, whatever element 3 holds and whatever the
payload decoders would say. -/
theorem decode_heartbeat_ignores_element_three {B S : Type}
    (parseBoot : Json → Except String B) (parseStatus : Json → Except String S)
    (v : List Json) (u : String)
    (hlen : 3 ≤ v.length)
    (h1 : v.get? 1 = some (.str u))
    (h2 : v.get? 2 = some (.str "Heartbeat")) :
    OcppRequest.deserialize parseBoot parseStatus (.arr v) = .ok ⟨.heartbeat, u⟩ := by
  have hlen' : ¬ v.length < 3 := Nat.not_lt.mpr hlen
  simp only [OcppRequest.deserialize, if_neg hlen', h1, h2, Option.some_bind, Json.as_str]
  simp

/-- C10 witness: the concrete array [2, "u", "Heartbeat", 42], whose element
3 is a number no payload schema accepts, still decodes to the Heartbeat Call
with uuid u. -/
theorem decode_heartbeat_ignores_element_three_witness :
    OcppRequest.deserialize reject_payload reject_payload
      (.arr [.num 2, .str "u", .str "Heartbeat", .num 42]) = .ok ⟨.heartbeat, "u"⟩ :=
  decode_heartbeat_ignores_element_three reject_payload reject_payload
    [.num 2, .str "u", .str "Heartbeat", .num 42] "u" (by decide) rfl rfl

/-- C9: for every array of length at least 3 whose element 1 is a string and
whose element 2 is an action name other than BootNotification, Heartbeat and
StatusNotification, the decoder fails with UnsupportedMessageType whose
details string embeds the action name, and into_ocpp_response maps that
error to the CallError with code NotSupported and the verbatim
description. -/
theorem decode_unknown_action_not_supported {B S : Type}
    (parseBoot : Json → Except String B) (parseStatus : Json → Except String S)
    (v : List Json) (u a : String)
    (hlen : 3 ≤ v.length)
    (h1 : v.get? 1 = some (.str u))
    (h2 : v.get? 2 = some (.str a))
    (hb : a ≠ "BootNotification") (hh : a ≠ "Heartbeat") (hs : a ≠ "StatusNotification") :
    OcppRequest.deserialize parseBoot parseStatus (.arr v) =
      .error (.ocpp (.unsupportedMessageType
        (.str ("Unknown message type: \x27" ++ a ++ "\x27.")))) ∧
    OcppResponseError.into_ocpp_response
        (.unsupportedMessageType (.str ("Unknown message type: \x27" ++ a ++ "\x27."))) =
      .callError "NotSupported"
        "Requested Action is recognized but not supported by the receiver"
        (.str ("Unknown message type: \x27" ++ a ++ "\x27.")) := by
  have hlen' : ¬ v.length < 3 := Nat.not_lt.mpr hlen
  refine ⟨?_, rfl⟩
  simp only [OcppRequest.deserialize, if_neg hlen', h1, h2, Option.some_bind, Json.as_str,
    if_neg hb, if_neg hh, if_neg hs]

/-- C9 witness: [2, "x", "Authorize", an empty object] decodes to the
UnsupportedMessageType error naming Authorize, and the error maps to the
NotSupported CallError carrying that details string. -/
theorem decode_unknown_action_not_supported_witness :
    OcppRequest.deserialize reject_payload reject_payload
      (.arr [.num 2, .str "x", .str "Authorize", .obj []]) =
      .error (.ocpp (.unsupportedMessageType
        (.str ("Unknown message type: \x27" ++ "Authorize" ++ "\x27.")))) ∧
    OcppResponseError.into_ocpp_response
        (.unsupportedMessageType (.str ("Unknown message type: \x27" ++ "Authorize" ++ "\x27."))) =
      .callError "NotSupported"
        "Requested Action is recognized but not supported by the receiver"
        (.str ("Unknown message type: \x27" ++ "Authorize" ++ "\x27.")) :=
  decode_unknown_action_not_supported reject_payload reject_payload
    [.num 2, .str "x", .str "Authorize", .obj []] "x" "Authorize"
    (by decide) rfl rfl (by decide) (by decide) (by decide)

/-- C8: the decoder is left-total on well-formed arrays: for every array of
length at least 3 whose element 0 is the integer 2 and whose elements 1 and
2 are strings, and for every pair of total payload decoders, decoding either
returns a typed Call or returns an InvalidRequestFormat or
UnsupportedMessageType error; being a total Lean function, the embedded
decoder cannot panic. -/
theorem decode_left_total_on_wellformed {B S : Type}
    (parseBoot : Json → Except String B) (parseStatus : Json → Except String S)
    (v : List Json) (u a : String)
    (hlen : 3 ≤ v.length)
    (_h0 : v.get? 0 = some (.num 2))
    (h1 : v.get? 1 = some (.str u))
    (h2 : v.get? 2 = some (.str a)) :
    (∃ req : OcppRequest B S,
      OcppRequest.deserialize parseBoot parseStatus (.arr v) = .ok req) ∨
    (∃ d, OcppRequest.deserialize parseBoot parseStatus (.arr v) =
      .error (.ocpp (.invalidRequestFormat d))) ∨
    (∃ d, OcppRequest.deserialize parseBoot parseStatus (.arr v) =
      .error (.ocpp (.unsupportedMessageType d))) := by
  have hlen' : ¬ v.length < 3 := Nat.not_lt.mpr hlen
  simp only [OcppRequest.deserialize, if_neg hlen', h1, h2, Option.some_bind, Json.as_str]
  by_cases hb : a = "BootNotification"
  · rw [if_pos hb]
    cases hv3 : v.get? 3 with
    | none => exact .inr (.inl ⟨_, rfl⟩)
    | some p =>
      cases hpb : parseBoot p with
      | error e =>
        refine .inr (.inl ⟨.str ("Failed to deserialize BootNotificationRequest: " ++ e), ?_⟩)
        simp only [hpb]
      | ok pl => refine .inl ⟨⟨.bootNotification pl, u⟩, ?_⟩; simp only [hpb]
  · rw [if_neg hb]
    by_cases hh : a = "Heartbeat"
    · rw [if_pos hh]
      exact .inl ⟨_, rfl⟩
    · rw [if_neg hh]
      by_cases hs : a = "StatusNotification"
      · rw [if_pos hs]
        cases hv3 : v.get? 3 with
        | none => exact .inr (.inl ⟨_, rfl⟩)
        | some p =>
          cases hps : parseStatus p with
          | error e =>
            refine .inr (.inl ⟨.str ("Failed to deserialize StatusNotificationRequest: " ++ e), ?_⟩)
            simp only [hps]
          | ok pl => refine .inl ⟨⟨.statusNotification pl, u⟩, ?_⟩; simp only [hps]
      · rw [if_neg hs]
        exact .inr (.inr ⟨_, rfl⟩)

/-- C8 witness: the well-formed array [2, "u", "Heartbeat"] lands in the
typed-Call disjunct. -/
theorem decode_left_total_on_wellformed_witness :
    (∃ req : OcppRequest Unit Unit,
      OcppRequest.deserialize reject_payload reject_payload
        (.arr [.num 2, .str "u", .str "Heartbeat"]) = .ok req) ∨
    (∃ d, OcppRequest.deserialize reject_payload reject_payload
      (.arr [.num 2, .str "u", .str "Heartbeat"]) =
      .error (.ocpp (.invalidRequestFormat d))) ∨
    (∃ d, OcppRequest.deserialize reject_payload reject_payload
      (.arr [.num 2, .str "u", .str "Heartbeat"]) =
      .error (.ocpp (.unsupportedMessageType d))) :=
  decode_left_total_on_wellformed reject_payload reject_payload
    [.num 2, .str "u", .str "Heartbeat"] "u" "Heartbeat" (by decide) rfl rfl rfl

/-- C1 counterexample: the dispatcher handed the text [2,"y"] (spec scenario
4) with a reply sink sends nothing at all: decode fails, the failure is
logged, handle_message returns Ok(()), and the oneshot sender is dropped
unfired — no CallError-serialized response is produced. -/
theorem dispatcher_drops_undecodable_message :
    Controller.handleMessage (fun _ => .heartbeat .null) reject_payload reject_payload
      bad_text = none :=
  rfl

/-- C1 amended: for every inbound text that decodes to a typed Call, the
dispatcher sends exactly one response envelope on the reply sink, an array
whose element 1 is the decoded uuid and whose element 0 is 3 (CallResult) or
4 (CallError); on decode failure it logs and sends nothing. -/
theorem dispatcher_reply_unique_uuid {B S : Type}
    (process : OcppRequestMessage B S → OcppResponseMessage)
    (parseBoot : Json → Except String B) (parseStatus : Json → Except String S)
    (message : Json) :
    (∀ req, OcppRequest.deserialize parseBoot parseStatus message = .ok req →
      ∃ elems, Controller.handleMessage process parseBoot parseStatus message =
          some (.arr elems) ∧
        elems.get? 1 = some (.str req.uuid) ∧
        (elems.get? 0 = some (.num 3) ∨ elems.get? 0 = some (.num 4))) ∧
    (∀ e, OcppRequest.deserialize parseBoot parseStatus message = .error e →
      Controller.handleMessage process parseBoot parseStatus message = none) := by
  constructor
  · intro req h
    simp only [Controller.handleMessage, h]
    cases hp : process req.payload with
    | statusNotification p => exact ⟨_, rfl, rfl, .inl rfl⟩
    | bootNotification p => exact ⟨_, rfl, rfl, .inl rfl⟩
    | heartbeat p => exact ⟨_, rfl, rfl, .inl rfl⟩
    | callError c d dd => exact ⟨_, rfl, rfl, .inr rfl⟩
  · intro e h
    simp only [Controller.handleMessage, h]

/-- C1 witness: a decodable Heartbeat Call gets exactly one reply carrying
its uuid, and the undecodable text [2,"y"] gets none. -/
theorem dispatcher_reply_unique_uuid_witness :
    (∃ elems, Controller.handleMessage (fun _ => OcppResponseMessage.heartbeat .null)
        reject_payload reject_payload (.arr [.num 2, .str "u", .str "Heartbeat"]) =
        some (.arr elems) ∧
      elems.get? 1 = some (.str "u") ∧
      (elems.get? 0 = some (.num 3) ∨ elems.get? 0 = some (.num 4))) ∧
    Controller.handleMessage (fun _ => OcppResponseMessage.heartbeat .null)
      reject_payload reject_payload (.arr [.num 2, .str "y"]) = none :=
  ⟨(dispatcher_reply_unique_uuid (fun _ => .heartbeat .null) reject_payload reject_payload
      (.arr [.num 2, .str "u", .str "Heartbeat"])).1 ⟨.heartbeat, "u"⟩ rfl,
   (dispatcher_reply_unique_uuid (fun _ => .heartbeat .null) reject_payload reject_payload
      (.arr [.num 2, .str "y"])).2
     (.ocpp (.invalidRequestFormat
       (.str "Invalid message format: expected at least 3 elements, found 2."))) rfl⟩

/-- C4 counterexample: a ClientMessage whose id is not in the map is dropped
entirely: the Registry neither forwards anything to the Dispatcher (the
trace of ToController messages is empty) nor produces a response, refuting
the parenthetical that the Call is still forwarded. -/
theorem registry_unknown_id_drops_message :
    Server.handle_message ⟨demo_controller_reply, []⟩
      (.clientMessage 7 (.arr [.num 2, .str "u", .str "Heartbeat"])) =
      (.ok ⟨demo_controller_reply, []⟩, []) :=
  rfl

/-- C4 amended: for a ClientMessage whose id is in the map, the Registry
forwards exactly one Message(text, replySender) to the Dispatcher, awaits
the reply, and enqueues the reply on that session mailbox (or propagates the
RecvError when the sender is dropped); when the id is not in the map, the
message is ignored entirely — nothing is forwarded to the Dispatcher and no
response is produced. -/
theorem registry_client_message_routing (reply : Json → Option Json)
    (clients : List (Nat × Client)) (id : Nat) (text : Json) :
    (lookupClient clients id = none →
      Server.handle_message ⟨reply, clients⟩ (.clientMessage id text) =
        (.ok ⟨reply, clients⟩, [])) ∧
    (∀ c, lookupClient clients id = some c →
      (∀ r, reply text = some r →
        Server.handle_message ⟨reply, clients⟩ (.clientMessage id text) =
          (.ok ⟨reply, pushMailbox clients id r⟩, [text])) ∧
      (reply text = none →
        Server.handle_message ⟨reply, clients⟩ (.clientMessage id text) =
          (.error .oneshotReceive, [text]))) := by
  refine ⟨fun h => ?_, fun c h => ⟨fun r hr => ?_, fun hr => ?_⟩⟩
  · simp only [Server.handle_message, h]
  · simp only [Server.handle_message, h, hr]
  · simp only [Server.handle_message, h, hr]

/-- C4 witness: with an empty map the message to id 9 is dropped without
being forwarded, and with session 1 registered a decodable Heartbeat text is
forwarded once and its reply enqueued on the mailbox of session 1. -/
theorem registry_client_message_routing_witness :
    Server.handle_message ⟨demo_controller_reply, []⟩ (.clientMessage 9 bad_text) =
      (.ok ⟨demo_controller_reply, []⟩, []) ∧
    Server.handle_message ⟨demo_controller_reply, [(1, ⟨1, []⟩)]⟩
      (.clientMessage 1 (.arr [.num 2, .str "u", .str "Heartbeat"])) =
      (.ok ⟨demo_controller_reply,
        pushMailbox [(1, ⟨1, []⟩)] 1 (.arr [.num 3, .str "u", .str "Heartbeat", .null])⟩,
       [.arr [.num 2, .str "u", .str "Heartbeat"]]) :=
  ⟨(registry_client_message_routing demo_controller_reply [] 9 bad_text).1 rfl,
   ((registry_client_message_routing demo_controller_reply [(1, ⟨1, []⟩)] 1
      (.arr [.num 2, .str "u", .str "Heartbeat"])).2 ⟨1, []⟩ rfl).1
     (.arr [.num 3, .str "u", .str "Heartbeat", .null]) rfl⟩

/-- C2 (code-bug evidence): with session 0 registered and the dispatcher
model as the reply function, one ClientMessage whose text fails to decode
makes Server::handle_message return the propagated RecvError, and run_server
— which applies the question-mark operator to every handle_message result —
stops with that error: the NewClient message queued behind it is never
consumed.  This contradicts the claim (and spec section 7) that the Registry
never fails fatally on a per-message error. -/
theorem registry_dies_on_undecodable_message :
    run_server ⟨demo_controller_reply, [(0, ⟨0, []⟩)]⟩
      [.clientMessage 0 bad_text, .newClient ⟨5, []⟩] = .error .oneshotReceive ∧
    (Server.handle_message ⟨demo_controller_reply, [(0, ⟨0, []⟩)]⟩
      (.clientMessage 0 bad_text)).1 = .error .oneshotReceive :=
  ⟨rfl, rfl⟩

/-- C5 counterexample: a request whose path component is /ocpp/station and
which carries the query string foo=bar is accepted with name station;
extract_name reads only the path component that hyper exposes, so query
strings are ignored rather than rejected with 400. -/
theorem extract_name_ignores_query :
    extract_name ⟨⟨"/ocpp/station", some "foo=bar"⟩⟩ = .name "station" :=
  rfl

/-- C5 amended: extract_name depends only on the path component (the query
string is ignored); the name n is accepted exactly when the non-empty path
segments are the two-element list ocpp, n; in every other case the result is
the 400 response with the verbatim invalid-URI body. -/
theorem extract_name_spec (path : String) (q q2 : Option String) (n : String) :
    extract_name ⟨⟨path, q⟩⟩ = extract_name ⟨⟨path, q2⟩⟩ ∧
    (extract_name ⟨⟨path, q⟩⟩ = .name n ↔ path_segments path = ["ocpp", n]) ∧
    ((∃ m, path_segments path = ["ocpp", m] ∧ extract_name ⟨⟨path, q⟩⟩ = .name m) ∨
      extract_name ⟨⟨path, q⟩⟩ = .error invalid_uri_response) := by
  refine ⟨rfl, ⟨fun h => ?_, fun h => ?_⟩, ?_⟩
  · simp only [extract_name] at h
    split at h
    · next name heq =>
      split at h
      · cases h
        exact heq
      · cases h
    · cases h
  · have hpred : (!n.isEmpty) = true := by
      have hmem : n ∈ path_segments path := by rw [h]; simp
      unfold path_segments at hmem
      exact (List.mem_filter.mp hmem).2
    simp [extract_name, h, hpred]
  · simp only [extract_name]
    split
    · next name heq =>
      split
      · next hne => exact .inl ⟨name, heq, rfl⟩
      · exact .inr rfl
    · exact .inr rfl

/-- C5 witness: a path with the right shape and a query string is accepted
with the second segment as the name and is insensitive to the query. -/
theorem extract_name_spec_witness :
    extract_name ⟨⟨"/ocpp/foo", some "a=b"⟩⟩ = extract_name ⟨⟨"/ocpp/foo", none⟩⟩ ∧
    extract_name ⟨⟨"/ocpp/foo", some "a=b"⟩⟩ = .name "foo" :=
  ⟨(extract_name_spec "/ocpp/foo" (some "a=b") none "foo").1,
   (extract_name_spec "/ocpp/foo" (some "a=b") none "foo").2.1.mpr rfl⟩
